import Mathlib

/-!
Verification of the book CRUD service in `src/lab7/main.py`.

The service keeps one SQLite table `books(id INTEGER PRIMARY KEY, title, author, price)`
and exposes five handlers (`get_books`, `get_book`, `create_book`, `update_book`,
`delete_book`), a pydantic validator (`BookCreate`) and a logging middleware
(`log_requests`).  We embed the table as a list of rows in rowid (scan) order and
embed each handler by translating its SQL statement under SQLite's documented
semantics.  Python floats carry no arithmetic in this program (prices are only
stored and echoed back), so they are represented by rationals.
-/

namespace Lab7

/-- A row of the `books` table (`BookDB` in `main.py`):
`id INTEGER PRIMARY KEY`, `title`, `author` strings, `price` a float. -/
structure Book where
  id : Int
  title : String
  author : String
  price : ℚ
deriving Repr, DecidableEq

/-- The `books` table: rows listed in rowid order, which is SQLite's natural
scan order for `SELECT * FROM books`. -/
abbrev DB := List Book

/-- SQLite rowid assignment for `INSERT` without an explicit id: the table was
created by SQLAlchemy as `id INTEGER PRIMARY KEY` (no `AUTOINCREMENT`), so the
new rowid is one larger than the largest rowid currently in use (1 when the
table is empty). -/
def nextRowid (db : DB) : Int :=
  (db.map Book.id).foldl max 0 + 1

/-- Embeds `INSERT INTO books (title, author, price) VALUES (...) RETURNING *`:
appends the new row (its rowid is the largest, so it is last in scan order)
and returns it. -/
def sqlInsertReturning (db : DB) (t a : String) (p : ℚ) : DB × Book :=
  let row : Book := ⟨nextRowid db, t, a, p⟩
  (db ++ [row], row)

/-- Embeds `SELECT * FROM books`: all rows in scan order. -/
def sqlSelectAll (db : DB) : List Book := db

/-- Embeds `SELECT * FROM books WHERE id = :id`, fetched with `fetch_one`. -/
def sqlSelectById (db : DB) (i : Int) : Option Book :=
  db.find? (fun b => b.id == i)

/-- Embeds `UPDATE books SET title = :t, author = :a, price = :p WHERE id = :id RETURNING *`:
overwrites the three fields of every row whose id matches (at most one, ids being
the primary key) and returns the updated row, or `none` when no row matched. -/
def sqlUpdateReturning (db : DB) (i : Int) (t a : String) (p : ℚ) : DB × Option Book :=
  match db.find? (fun b => b.id == i) with
  | none => (db, none)
  | some _ =>
      (db.map (fun b => if b.id == i then { b with title := t, author := a, price := p } else b),
       some ⟨i, t, a, p⟩)

/-- Embeds `DELETE FROM books WHERE id = :id RETURNING *`: removes the matching rows and
returns the deleted row, or `none` when no row matched. -/
def sqlDeleteReturning (db : DB) (i : Int) : DB × Option Book :=
  match db.find? (fun b => b.id == i) with
  | none => (db, none)
  | some b => (db.filter (fun c => c.id != i), some b)

/-- The JSON response bodies this service produces. -/
inductive Body where
  /-- a JSON array of full book records (the `List[Book]` response model) -/
  | bookList (bs : List Book)
  /-- a single full book record (the `Book` response model) -/
  | book (b : Book)
  /-- an HTTPException payload, rendered by FastAPI as a JSON object whose
  `detail` field is the given string -/
  | detail (s : String)
  /-- a JSON object whose `message` field is the given string (delete confirmation) -/
  | message (s : String)
  /-- FastAPI's RequestValidationError payload (a `detail` list of errors) -/
  | validationError
deriving Repr, DecidableEq

/-- An HTTP response: status code plus JSON body. -/
@[ext]
structure Response where
  status : Nat
  body : Body
deriving Repr, DecidableEq

/-- The request-body schema `BookCreate` after successful pydantic validation. -/
structure BookCreate where
  title : String
  author : String
  price : ℚ
deriving Repr, DecidableEq

/-- Handler for `GET /books` (`get_books` in `main.py`): fetch all rows; FastAPI serialises
them with status 200. -/
def get_books (db : DB) : Response :=
  ⟨200, Body.bookList (sqlSelectAll db)⟩

/-- Handler for `GET /books/{book_id}` (`get_book`): fetch one row by id; raise
`HTTPException(404, "Book not found")` when `fetch_one` returns `None`. -/
def get_book (db : DB) (book_id : Int) : Response :=
  match sqlSelectById db book_id with
  | none => ⟨404, Body.detail "Book not found"⟩
  | some book => ⟨200, Body.book book⟩

/-- Handler for `POST /books` (`create_book`) after validation: insert the row and return
the created record (never raises, so status is FastAPI's default 200). -/
def create_book (db : DB) (book : BookCreate) : DB × Response :=
  let r := sqlInsertReturning db book.title book.author book.price
  (r.1, ⟨200, Body.book r.2⟩)

/-- Handler for `PUT /books/{book_id}` (`update_book`) after validation: run the UPDATE;
404 when no row matched, otherwise return the updated record. -/
def update_book (db : DB) (book_id : Int) (book : BookCreate) : DB × Response :=
  match sqlUpdateReturning db book_id book.title book.author book.price with
  | (db2, none) => (db2, ⟨404, Body.detail "Book not found"⟩)
  | (db2, some b) => (db2, ⟨200, Body.book b⟩)

/-- Handler for `DELETE /books/{book_id}` (`delete_book`): run the DELETE; 404 when no row
matched, otherwise return the fixed confirmation message. -/
def delete_book (db : DB) (book_id : Int) : DB × Response :=
  match sqlDeleteReturning db book_id with
  | (db2, none) => (db2, ⟨404, Body.detail "Book not found"⟩)
  | (db2, some _) => (db2, ⟨200, Body.message "Book deleted successfully"⟩)

/-! ### Request-body validation (pydantic `BookCreate`)

`BookCreate` declares `title: str`, `author: str`, `price: float`.  A JSON body
is an object whose fields may be absent; pydantic v1 validates each field with
lax coercion: a `float` field accepts a JSON number, a boolean (a Python `bool`
is an `int`) or a numeric string, and a `str` field accepts a string or a
number (coerced to its textual form).  A missing field or a failed coercion is
a validation error, which FastAPI surfaces as a 422 response. -/

/-- A JSON value, restricted to the scalar shapes the request bodies use. -/
inductive JVal where
  | jnull
  | jbool (b : Bool)
  | jnum (q : ℚ)
  | jstr (s : String)
deriving Repr, DecidableEq

/-- A request body for POST/PUT: each schema field either present or absent. -/
structure JBody where
  title : Option JVal
  author : Option JVal
  price : Option JVal
deriving Repr, DecidableEq

/-- Value of a decimal digit string (validity is checked by the caller). -/
def natOfDigits (cs : List Char) : Nat :=
  cs.foldl (fun a c => a * 10 + (c.toNat - 48)) 0

/-- Split a character list at the first dot, when there is one. -/
def splitAtDot : List Char → List Char × Option (List Char)
  | [] => ([], none)
  | '.' :: rest => ([], some rest)
  | c :: rest =>
      let r := splitAtDot rest
      (c :: r.1, r.2)

/-- Python's `float(s)` on a string, in the decimal forms this API can meet:
an optional sign, digits with at most one dot and at least one digit
(`"9.99"`, `"-3"`, `"1."`, `".5"`).  Exponent, `inf`/`nan`, underscore and
surrounding-whitespace forms never arise in the claims and are omitted. -/
def parsePyFloat (s : String) : Option ℚ :=
  let signed : ℚ × List Char :=
    match s.data with
    | '-' :: r => (-1, r)
    | '+' :: r => (1, r)
    | cs => (1, cs)
  let parts := splitAtDot signed.2
  let ip := parts.1
  let fp := parts.2.getD []
  if (ip ++ fp) ≠ [] ∧ (ip ++ fp).all Char.isDigit then
    some (signed.1 * ((natOfDigits ip : ℚ) + (natOfDigits fp : ℚ) / (10 : ℚ) ^ fp.length))
  else
    none

/-- pydantic v1 validation of a `float` field: numbers pass through, booleans
coerce (`float(True) = 1.0`), numeric strings parse, everything else errors. -/
def pydFloat : JVal → Option ℚ
  | JVal.jnum q => some q
  | JVal.jbool b => some (if b then 1 else 0)
  | JVal.jstr s => parsePyFloat s
  | JVal.jnull => none

/-- pydantic v1 validation of a `str` field: strings pass through and numbers
coerce to a textual form (whose exact spelling never matters to this API);
null errors.  A JSON boolean arrives as a Python `bool`, which is an `int`,
so it also coerces. -/
def pydStr : JVal → Option String
  | JVal.jstr s => some s
  | JVal.jnum q => some (toString q)
  | JVal.jbool b => some (if b then "True" else "False")
  | JVal.jnull => none

/-- Validation of a whole `BookCreate` body: every field must be present and
coercible, otherwise the body is rejected. -/
def validateBookCreate (body : JBody) : Option BookCreate :=
  match body.title.bind pydStr, body.author.bind pydStr, body.price.bind pydFloat with
  | some t, some a, some p => some ⟨t, a, p⟩
  | _, _, _ => none

/-- The POST /books route as FastAPI runs it: validate the body (422 on
failure, leaving the table untouched), then call the handler. -/
def postBooks (db : DB) (body : JBody) : DB × Response :=
  match validateBookCreate body with
  | none => (db, ⟨422, Body.validationError⟩)
  | some bc => create_book db bc

/-- The PUT /books/{id} route as FastAPI runs it: validate, then update. -/
def putBooks (db : DB) (book_id : Int) (body : JBody) : DB × Response :=
  match validateBookCreate body with
  | none => (db, ⟨422, Body.validationError⟩)
  | some bc => update_book db book_id bc

/-! ### Logging middleware -/

/-- The parts of an inbound request the middleware reads. -/
structure Request where
  method : String
  path : String
deriving Repr, DecidableEq

/-- Zero-pad a numeral to 3 digits. -/
def pad3 (n : Nat) : String :=
  if n < 10 then "00" ++ toString n
  else if n < 100 then "0" ++ toString n
  else toString n

/-- Renders `f"{duration:.3f}"` for a duration given in milliseconds. -/
def formatDuration3 (durMs : Nat) : String :=
  toString (durMs / 1000) ++ "." ++ pad3 (durMs % 1000)

/-- The message of the one log line `log_requests` emits:
`f"{method} {path} - Status: {status} - Duration: {duration:.3f}s"`. -/
def logLine (req : Request) (status : Nat) (durMs : Nat) : String :=
  req.method ++ " " ++ req.path ++ " - Status: " ++ toString status ++
    " - Duration: " ++ formatDuration3 durMs ++ "s"

/-- The `log_requests` middleware: call the downstream handler chain
(`call_next`), append one info line to the log, and return the downstream
response unchanged.  Wall-clock duration is an input to the model. -/
def log_requests (call_next : Request → Response) (durMs : Nat)
    (log : List String) (req : Request) : Response × List String :=
  let response := call_next req
  (response, log ++ [logLine req response.status durMs])

/-! ### Reachable states -/

/-- The state-changing operations a client can perform within one process
lifetime (reads change nothing). -/
inductive Op where
  | create (b : BookCreate)
  | update (i : Int) (b : BookCreate)
  | delete (i : Int)
deriving Repr

/-- Apply one operation to the table. -/
def applyOp (db : DB) : Op → DB
  | Op.create b => (create_book db b).1
  | Op.update i b => (update_book db i b).1
  | Op.delete i => (delete_book db i).1

/-- The table after a sequence of operations starting from the empty table
created at startup. -/
def runOps (ops : List Op) : DB :=
  ops.foldl applyOp []

/-- The id column has no duplicate values. -/
def UniqueIds (db : DB) : Prop :=
  (db.map Book.id).Nodup

instance (db : DB) : Decidable (UniqueIds db) := by
  unfold UniqueIds; infer_instance

/-- The id column is strictly increasing in scan order (the rowid ordering
invariant SQLite maintains). -/
def StrictIds (db : DB) : Prop :=
  (db.map Book.id).Pairwise (· < ·)


/-! ### Helper lemmas -/

theorem foldl_max_init_le (l : List Int) (a : Int) : a ≤ l.foldl max a := by
  induction l generalizing a with
  | nil => exact le_refl a
  | cons x xs ih => exact le_trans (le_max_left a x) (ih (max a x))

theorem mem_le_foldl_max (l : List Int) : ∀ a x : Int, x ∈ l → x ≤ l.foldl max a := by
  induction l with
  | nil => intro a x hx; cases hx
  | cons y ys ih =>
      intro a x hx
      rcases List.mem_cons.mp hx with h | h
      · subst h
        exact le_trans (le_max_right a x) (foldl_max_init_le ys (max a x))
      · exact ih (max a y) x h

theorem find?_eq_none_of_forall_ne (db : DB) (i : Int)
    (habs : ∀ b ∈ db, b.id ≠ i) : db.find? (fun b => b.id == i) = none :=
  List.find?_eq_none.mpr (fun b hb => by simpa using habs b hb)

theorem find?_isSome_of_mem (db : DB) (i : Int) (b : Book) (hb : b ∈ db)
    (hbi : b.id = i) : (db.find? (fun c => c.id == i)).isSome :=
  List.find?_isSome.mpr ⟨b, hb, by simpa using hbi⟩

theorem update_book_fst (db : DB) (i : Int) (b : BookCreate) :
    (update_book db i b).1 = (sqlUpdateReturning db i b.title b.author b.price).1 := by
  unfold update_book
  rcases h : sqlUpdateReturning db i b.title b.author b.price with ⟨db2, ob⟩
  cases ob <;> simp

theorem delete_book_fst (db : DB) (i : Int) :
    (delete_book db i).1 = (sqlDeleteReturning db i).1 := by
  unfold delete_book
  rcases h : sqlDeleteReturning db i with ⟨db2, ob⟩
  cases ob <;> simp

theorem sqlUpdate_map_id (db : DB) (i : Int) (t a : String) (p : ℚ) :
    ((sqlUpdateReturning db i t a p).1).map Book.id = db.map Book.id := by
  unfold sqlUpdateReturning
  cases hf : db.find? (fun b => b.id == i) with
  | none => rfl
  | some c =>
      simp only [List.map_map]
      refine List.map_congr_left (fun x _ => ?_)
      by_cases hx : x.id = i <;> simp [hx, Function.comp]

theorem filter_ne_map_update (db : DB) (i : Int) (t a : String) (p : ℚ) :
    ((db.map (fun b =>
        if b.id == i then { b with title := t, author := a, price := p } else b)).filter
      (fun c => c.id != i))
      = db.filter (fun c => c.id != i) := by
  induction db with
  | nil => rfl
  | cons x xs ih =>
      simp only [List.map_cons]
      cases hb : x.id == i with
      | true =>
          have hid : x.id = i := by simpa using hb
          simpa [hid] using ih
      | false =>
          have hid : ¬ x.id = i := by simpa using hb
          simpa [hb, hid] using ih

theorem strictIds_create (db : DB) (b : BookCreate) (h : StrictIds db) :
    StrictIds (create_book db b).1 := by
  unfold StrictIds create_book sqlInsertReturning at *
  simp only [List.map_append, List.map_cons, List.map_nil]
  rw [List.pairwise_append]
  refine ⟨h, List.pairwise_singleton _ _, ?_⟩
  intro x hx y hy
  rcases List.mem_singleton.mp hy with rfl
  have hle := mem_le_foldl_max (db.map Book.id) 0 x hx
  unfold nextRowid
  omega

theorem strictIds_update (db : DB) (i : Int) (b : BookCreate) (h : StrictIds db) :
    StrictIds (update_book db i b).1 := by
  unfold StrictIds at *
  rw [update_book_fst, sqlUpdate_map_id]
  exact h

theorem strictIds_delete (db : DB) (i : Int) (h : StrictIds db) :
    StrictIds (delete_book db i).1 := by
  unfold StrictIds at *
  rw [delete_book_fst]
  unfold sqlDeleteReturning
  cases hf : db.find? (fun b => b.id == i) with
  | none => exact h
  | some c =>
      exact List.Pairwise.sublist (List.Sublist.map _ (List.filter_sublist db)) h

theorem strictIds_runOps (ops : List Op) : StrictIds (runOps ops) := by
  unfold runOps
  suffices hgen : ∀ (l : List Op) (db : DB), StrictIds db → StrictIds (l.foldl applyOp db) by
    exact hgen ops [] (by simp [StrictIds])
  intro l
  induction l with
  | nil => intro db h; exact h
  | cons o os ih =>
      intro db h
      refine ih (applyOp db o) ?_
      cases o with
      | create b => exact strictIds_create db b h
      | update i b => exact strictIds_update db i b h
      | delete i => exact strictIds_delete db i h

/-! ### Claim theorems -/

/-- C1: for every well-typed input body (one that passes `BookCreate`
validation), `POST /books` succeeds with status 200, the storage layer assigns
the id `nextRowid db` to the new record, and the response echoes exactly the
three validated input field values together with that assigned id. -/
theorem create_book_spec (db : DB) (body : JBody) (bc : BookCreate)
    (hv : validateBookCreate body = some bc) :
    (postBooks db body).2.status = 200 ∧
    (postBooks db body).2.body
      = Body.book ⟨nextRowid db, bc.title, bc.author, bc.price⟩ ∧
    (postBooks db body).1 = db ++ [⟨nextRowid db, bc.title, bc.author, bc.price⟩] := by
  unfold postBooks
  rw [hv]
  exact ⟨rfl, rfl, rfl⟩

/-- Witness for C1 at the concrete body of the spec scenario
`{"title": "Test Book", "author": "Test Author", "price": 9.99}` on an empty
table. -/
theorem create_book_spec_witness :
    (postBooks [] ⟨some (JVal.jstr "Test Book"), some (JVal.jstr "Test Author"),
        some (JVal.jnum (999 / 100))⟩).2
      = ⟨200, Body.book ⟨1, "Test Book", "Test Author", 999 / 100⟩⟩ ∧
    (postBooks [] ⟨some (JVal.jstr "Test Book"), some (JVal.jstr "Test Author"),
        some (JVal.jnum (999 / 100))⟩).1
      = [⟨1, "Test Book", "Test Author", 999 / 100⟩] := by
  have h := create_book_spec [] ⟨some (JVal.jstr "Test Book"),
    some (JVal.jstr "Test Author"), some (JVal.jnum (999 / 100))⟩
    ⟨"Test Book", "Test Author", 999 / 100⟩ rfl
  exact ⟨by rw [Response.ext_iff]; exact ⟨h.1, h.2.1⟩, h.2.2⟩

/-- C4: on an id with no matching record, both `PUT /books/{id}` (with a
well-typed body) and `DELETE /books/{id}` respond 404 with detail
"Book not found", and the stored table is left unchanged. -/
theorem notfound_leaves_table_unchanged (db : DB) (i : Int) (nb : BookCreate)
    (habs : ∀ b ∈ db, b.id ≠ i) :
    update_book db i nb = (db, ⟨404, Body.detail "Book not found"⟩) ∧
    delete_book db i = (db, ⟨404, Body.detail "Book not found"⟩) := by
  have hf := find?_eq_none_of_forall_ne db i habs
  constructor
  · unfold update_book sqlUpdateReturning
    rw [hf]
  · unfold delete_book sqlDeleteReturning
    rw [hf]

/-- Witness for C4: updating and deleting id 999 on a one-row table with id 1. -/
theorem notfound_leaves_table_unchanged_witness :
    update_book [⟨1, "Test Book", "Test Author", 999 / 100⟩] 999
        ⟨"Updated Book", "Updated Author", 1299 / 100⟩
      = ([⟨1, "Test Book", "Test Author", 999 / 100⟩],
         ⟨404, Body.detail "Book not found"⟩) ∧
    delete_book [⟨1, "Test Book", "Test Author", 999 / 100⟩] 999
      = ([⟨1, "Test Book", "Test Author", 999 / 100⟩],
         ⟨404, Body.detail "Book not found"⟩) :=
  notfound_leaves_table_unchanged [⟨1, "Test Book", "Test Author", 999 / 100⟩] 999
    ⟨"Updated Book", "Updated Author", 1299 / 100⟩ (by decide)

/-- C5: deleting an existing record responds 200 with the fixed confirmation
body (a message, not the deleted record's data), and a subsequent get on the
same id responds 404. -/
theorem delete_book_existing_spec (db : DB) (i : Int) (hex : ∃ b ∈ db, b.id = i) :
    (delete_book db i).2 = ⟨200, Body.message "Book deleted successfully"⟩ ∧
    get_book (delete_book db i).1 i = ⟨404, Body.detail "Book not found"⟩ := by
  obtain ⟨b, hb, hbi⟩ := hex
  have hs := find?_isSome_of_mem db i b hb hbi
  rcases hf : db.find? (fun c => c.id == i) with _ | c
  · rw [hf] at hs; cases hs
  · unfold delete_book sqlDeleteReturning
    rw [hf]
    refine ⟨rfl, ?_⟩
    unfold get_book sqlSelectById
    have hnone : (db.filter (fun c => c.id != i)).find? (fun c => c.id == i) = none := by
      refine List.find?_eq_none.mpr (fun x hx => ?_)
      have hx2 := (List.mem_filter.mp hx).2
      simp only [bne_iff_ne, ne_eq, decide_eq_true_eq] at hx2
      simpa using hx2
    rw [hnone]

/-- Witness for C5 on a one-row table. -/
theorem delete_book_existing_spec_witness :
    (delete_book [⟨1, "Test Book", "Test Author", 999 / 100⟩] 1).2
      = ⟨200, Body.message "Book deleted successfully"⟩ ∧
    get_book (delete_book [⟨1, "Test Book", "Test Author", 999 / 100⟩] 1).1 1
      = ⟨404, Body.detail "Book not found"⟩ :=
  delete_book_existing_spec [⟨1, "Test Book", "Test Author", 999 / 100⟩] 1
    ⟨⟨1, "Test Book", "Test Author", 999 / 100⟩, List.mem_singleton.mpr rfl, rfl⟩

/-- C6: `GET /books` always succeeds with status 200 and returns the sequence
of all stored records in the storage scan order (and hence the empty sequence
on the empty table). -/
theorem get_books_spec (db : DB) :
    (get_books db).status = 200 ∧
    (get_books db).body = Body.bookList (sqlSelectAll db) ∧
    sqlSelectAll db = db :=
  ⟨rfl, rfl, rfl⟩

/-- C9: the logging middleware returns the downstream response unchanged; its
only effect is appending one formatted log line. -/
theorem log_requests_spec (call_next : Request → Response) (durMs : Nat)
    (log : List String) (req : Request) :
    (log_requests call_next durMs log req).1 = call_next req ∧
    (log_requests call_next durMs log req).2
      = log ++ [logLine req (call_next req).status durMs] :=
  ⟨rfl, rfl⟩

/-- C2: when the table's ids are unique (the primary-key invariant), the get
operation returns the stored record whose id matches whenever one exists, and
responds 404 with detail "Book not found" exactly when no record has that id. -/
theorem get_book_spec (db : DB) (i : Int) (hu : UniqueIds db) :
    (∀ b ∈ db, b.id = i → get_book db i = ⟨200, Body.book b⟩) ∧
    (get_book db i = ⟨404, Body.detail "Book not found"⟩ ↔ ∀ b ∈ db, b.id ≠ i) := by
  rcases hf : db.find? (fun c => c.id == i) with _ | c
  · have hg : get_book db i = ⟨404, Body.detail "Book not found"⟩ := by
      unfold get_book sqlSelectById
      rw [hf]
    have hall : ∀ b ∈ db, b.id ≠ i := by
      intro b hb
      have := List.find?_eq_none.mp hf b hb
      simpa using this
    refine ⟨?_, ?_⟩
    · intro b hb hbi
      exact absurd hbi (hall b hb)
    · exact ⟨fun _ => hall, fun _ => hg⟩
  · have hc : c.id = i := by simpa using List.find?_some hf
    have hcm := List.mem_of_find?_eq_some hf
    have hg : get_book db i = ⟨200, Body.book c⟩ := by
      unfold get_book sqlSelectById
      rw [hf]
    refine ⟨?_, ?_⟩
    · intro b hb hbi
      have hcb : c = b := List.inj_on_of_nodup_map hu hcm hb (by rw [hc, hbi])
      rw [hg, hcb]
    · constructor
      · intro h
        rw [hg] at h
        simp at h
      · intro h
        exact absurd hc (h c hcm)

/-- Witness for C2: a found id and a missing id (999) on a one-row table. -/
theorem get_book_spec_witness :
    get_book [⟨1, "Test Book", "Test Author", 999 / 100⟩] 1
      = ⟨200, Body.book ⟨1, "Test Book", "Test Author", 999 / 100⟩⟩ ∧
    get_book [⟨1, "Test Book", "Test Author", 999 / 100⟩] 999
      = ⟨404, Body.detail "Book not found"⟩ := by
  have h1 := get_book_spec [⟨1, "Test Book", "Test Author", 999 / 100⟩] 1 (by decide)
  have h2 := get_book_spec [⟨1, "Test Book", "Test Author", 999 / 100⟩] 999 (by decide)
  exact ⟨h1.1 ⟨1, "Test Book", "Test Author", 999 / 100⟩ (List.mem_singleton.mpr rfl) rfl,
    h2.2.mpr (by decide)⟩

/-- C3: updating an existing id overwrites the three business fields of every
record carrying that id (there is exactly one, ids being unique) with the new
values, keeps the id column of the table unchanged, and responds 200 with the
updated record. -/
theorem update_book_existing_spec (db : DB) (i : Int) (nb : BookCreate)
    (hex : ∃ b ∈ db, b.id = i) :
    (update_book db i nb).2 = ⟨200, Body.book ⟨i, nb.title, nb.author, nb.price⟩⟩ ∧
    (∀ c ∈ (update_book db i nb).1, c.id = i → c = ⟨i, nb.title, nb.author, nb.price⟩) ∧
    (∃ c ∈ (update_book db i nb).1, c.id = i) ∧
    ((update_book db i nb).1).map Book.id = db.map Book.id := by
  obtain ⟨b, hb, hbi⟩ := hex
  have hs := find?_isSome_of_mem db i b hb hbi
  rcases hf : db.find? (fun c => c.id == i) with _ | c
  · rw [hf] at hs; cases hs
  · have hfst : (update_book db i nb).1
        = db.map (fun x => if x.id == i then
            { x with title := nb.title, author := nb.author, price := nb.price } else x) := by
      rw [update_book_fst]
      unfold sqlUpdateReturning
      rw [hf]
    refine ⟨?_, ?_, ?_, ?_⟩
    · unfold update_book sqlUpdateReturning
      rw [hf]
    · intro c hc hci
      rw [hfst] at hc
      rcases List.mem_map.mp hc with ⟨x, hx, hxc⟩
      by_cases hxi : x.id = i
      · have : c = { x with title := nb.title, author := nb.author, price := nb.price } := by
          rw [← hxc]
          simp [hxi]
        rw [this]
        simp [hxi]
      · exfalso
        have : c = x := by
          rw [← hxc]
          simp [hxi]
        rw [this] at hci
        exact hxi hci
    · refine ⟨{ b with title := nb.title, author := nb.author, price := nb.price }, ?_, hbi⟩
      rw [hfst]
      have : (fun x => if x.id == i then
          { x with title := nb.title, author := nb.author, price := nb.price } else x) b
          = { b with title := nb.title, author := nb.author, price := nb.price } := by
        simp [hbi]
      rw [← this]
      exact List.mem_map_of_mem _ hb
    · rw [update_book_fst, sqlUpdate_map_id]

/-- Witness for C3: updating the one existing record with new field values. -/
theorem update_book_existing_spec_witness :
    (update_book [⟨1, "Test Book", "Test Author", 999 / 100⟩] 1
        ⟨"Updated Book", "Updated Author", 1299 / 100⟩).2
      = ⟨200, Body.book ⟨1, "Updated Book", "Updated Author", 1299 / 100⟩⟩ ∧
    ((update_book [⟨1, "Test Book", "Test Author", 999 / 100⟩] 1
        ⟨"Updated Book", "Updated Author", 1299 / 100⟩).1).map Book.id = [1] := by
  have h := update_book_existing_spec [⟨1, "Test Book", "Test Author", 999 / 100⟩] 1
    ⟨"Updated Book", "Updated Author", 1299 / 100⟩
    ⟨⟨1, "Test Book", "Test Author", 999 / 100⟩, List.mem_singleton.mpr rfl, rfl⟩
  exact ⟨h.1, by rw [h.2.2.2]; rfl⟩

/-- C7 (amended): in every storage state reachable within one process lifetime
(any sequence of create/update/delete operations from the empty table), the id
field is unique across all stored records. -/
theorem ids_unique_reachable (ops : List Op) : UniqueIds (runOps ops) :=
  (strictIds_runOps ops).imp (fun h => ne_of_lt h)

/-- Counterexample to C7 as stated: ids are reused after deletion.  Creating a
book assigns id 1; after deleting it, the id column is empty, so the next
created record is assigned id 1 again (SQLite `INTEGER PRIMARY KEY` without
`AUTOINCREMENT` picks one more than the largest id currently in use). -/
theorem id_reuse_counterexample :
    (create_book [] ⟨"Test Book", "Test Author", 999 / 100⟩).2
      = ⟨200, Body.book ⟨1, "Test Book", "Test Author", 999 / 100⟩⟩ ∧
    runOps [Op.create ⟨"Test Book", "Test Author", 999 / 100⟩, Op.delete 1] = [] ∧
    (create_book (runOps [Op.create ⟨"Test Book", "Test Author", 999 / 100⟩, Op.delete 1])
        ⟨"Second Book", "Second Author", 5⟩).2
      = ⟨200, Body.book ⟨1, "Second Book", "Second Author", 5⟩⟩ :=
  ⟨rfl, rfl, rfl⟩

/-- C8: the validator is structural only: it rejects any body missing `title`,
`author` or `price` and any body whose price value is not numeric (not
coercible to a float), while it accepts negative prices and empty
title/author strings, imposing no business constraints beyond structure and
type. -/
theorem validator_spec (t a p : JVal) (q : ℚ) (s1 s2 : String)
    (_hq : q < 0) (hp : pydFloat p = none) :
    validateBookCreate ⟨none, some a, some p⟩ = none ∧
    validateBookCreate ⟨some t, none, some p⟩ = none ∧
    validateBookCreate ⟨some t, some a, none⟩ = none ∧
    validateBookCreate ⟨some t, some a, some p⟩ = none ∧
    validateBookCreate ⟨some (JVal.jstr s1), some (JVal.jstr s2), some (JVal.jnum q)⟩
      = some ⟨s1, s2, q⟩ ∧
    validateBookCreate ⟨some (JVal.jstr ""), some (JVal.jstr ""), some (JVal.jnum q)⟩
      = some ⟨"", "", q⟩ := by
  refine ⟨?_, ?_, ?_, ?_, rfl, rfl⟩
  · unfold validateBookCreate
    cases hA : pydStr a <;> cases hP : pydFloat p <;> simp [hA, hP]
  · unfold validateBookCreate
    cases hT : pydStr t <;> cases hP : pydFloat p <;> simp [hT, hP]
  · unfold validateBookCreate
    cases hT : pydStr t <;> cases hA : pydStr a <;> simp [hT, hA]
  · unfold validateBookCreate
    cases hT : pydStr t <;> cases hA : pydStr a <;> simp [hT, hA, hp]

/-- Witness for C8: a body missing the title, a body with the non-numeric
price string "abc", and an accepted body with empty strings and price -5. -/
theorem validator_spec_witness :
    validateBookCreate ⟨none, some (JVal.jstr "Test Author"),
        some (JVal.jstr "abc")⟩ = none ∧
    validateBookCreate ⟨some (JVal.jstr "Test Book"), some (JVal.jstr "Test Author"),
        some (JVal.jstr "abc")⟩ = none ∧
    validateBookCreate ⟨some (JVal.jstr ""), some (JVal.jstr ""),
        some (JVal.jnum (-5))⟩ = some ⟨"", "", -5⟩ := by
  have h := validator_spec (JVal.jstr "Test Book") (JVal.jstr "Test Author")
    (JVal.jstr "abc") (-5) "" "" (by norm_num) (by decide)
  exact ⟨h.1, h.2.2.2.1, h.2.2.2.2.2⟩

/-- C10: each write touches at most the targeted record: create appends one
new record and leaves every existing record in place, and update/delete leave
the records whose id differs from the targeted id unchanged (the sublist of
other-id records is exactly the same, and each such record is still stored). -/
theorem write_frame_spec (db : DB) (b : BookCreate) (i : Int) :
    (create_book db b).1 = db ++ [⟨nextRowid db, b.title, b.author, b.price⟩] ∧
    ((update_book db i b).1).filter (fun c => c.id != i) = db.filter (fun c => c.id != i) ∧
    ((delete_book db i).1).filter (fun c => c.id != i) = db.filter (fun c => c.id != i) ∧
    (∀ c ∈ db, c.id ≠ i → c ∈ (update_book db i b).1) ∧
    (∀ c ∈ db, c.id ≠ i → c ∈ (delete_book db i).1) := by
  have hupd : ((update_book db i b).1).filter (fun c => c.id != i)
      = db.filter (fun c => c.id != i) := by
    rw [update_book_fst]
    unfold sqlUpdateReturning
    cases hf : db.find? (fun c => c.id == i) with
    | none => rfl
    | some c => exact filter_ne_map_update db i b.title b.author b.price
  have hdel : ((delete_book db i).1).filter (fun c => c.id != i)
      = db.filter (fun c => c.id != i) := by
    rw [delete_book_fst]
    unfold sqlDeleteReturning
    cases hf : db.find? (fun c => c.id == i) with
    | none => rfl
    | some c =>
        show (db.filter (fun c => c.id != i)).filter (fun c => c.id != i) = _
        simp [List.filter_filter]
  refine ⟨rfl, hupd, hdel, ?_, ?_⟩
  · intro c hc hci
    have hm : c ∈ db.filter (fun c => c.id != i) :=
      List.mem_filter.mpr ⟨hc, by simpa using hci⟩
    rw [← hupd] at hm
    exact List.mem_of_mem_filter hm
  · intro c hc hci
    have hm : c ∈ db.filter (fun c => c.id != i) :=
      List.mem_filter.mpr ⟨hc, by simpa using hci⟩
    rw [← hdel] at hm
    exact List.mem_of_mem_filter hm

/-- Witness for C10 on a two-row table, targeting id 2: the id-1 record
survives update and delete untouched. -/
theorem write_frame_spec_witness :
    ((update_book [⟨1, "Test Book", "Test Author", 999 / 100⟩,
          ⟨2, "Second Book", "Second Author", 5⟩] 2
        ⟨"New Title", "New Author", 1⟩).1).filter (fun c => c.id != 2)
      = [⟨1, "Test Book", "Test Author", 999 / 100⟩] ∧
    ((delete_book [⟨1, "Test Book", "Test Author", 999 / 100⟩,
          ⟨2, "Second Book", "Second Author", 5⟩] 2).1).filter (fun c => c.id != 2)
      = [⟨1, "Test Book", "Test Author", 999 / 100⟩] ∧
    ⟨1, "Test Book", "Test Author", 999 / 100⟩
      ∈ (delete_book [⟨1, "Test Book", "Test Author", 999 / 100⟩,
          ⟨2, "Second Book", "Second Author", 5⟩] 2).1 := by
  have h := write_frame_spec [⟨1, "Test Book", "Test Author", 999 / 100⟩,
    ⟨2, "Second Book", "Second Author", 5⟩] ⟨"New Title", "New Author", 1⟩ 2
  refine ⟨?_, ?_, ?_⟩
  · rw [h.2.1]; rfl
  · rw [h.2.2.1]; rfl
  · exact h.2.2.2.2 ⟨1, "Test Book", "Test Author", 999 / 100⟩
      (List.mem_cons_self _ _) (by decide)

end Lab7
